import Mathlib

/-!
Context lifecycle shims of `Sources/CAWSCrypto/shims.c`.

A shallow embedding of the four shim functions

* `AWSCRYPTO_HMAC_CTX_new`, `AWSCRYPTO_HMAC_CTX_free`
* `AWSCRYPTO_EVP_MD_CTX_new`, `AWSCRYPTO_EVP_MD_CTX_free`

The wrapped cryptographic library is not part of the repository.  The shims are
therefore embedded over an arbitrary library `Lib σ` (one state-passing function
per library entry point the source calls), and the preprocessor selection is
embedded as an `if` on an explicit build configuration.  The source is compiled
only when `__linux__` is defined; the embedding is of that case.
-/

namespace CAWSCrypto

/-! Section: handles. -/

/-- A C pointer, seen as an address. -/
abbrev Ptr := Nat

/-- The null pointer. -/
def NULL : Ptr := 0

/-! Section: build configuration and the preprocessor condition. -/

/-- The two macros the `#if` lines read.  `LIBRESSL_VERSION_NUMBER` is `none`
when the macro is not defined. -/
structure BuildConfig where
  OPENSSL_VERSION_NUMBER : Int
  LIBRESSL_VERSION_NUMBER : Option Int
deriving DecidableEq, Repr

/-- The preprocessor idiom `defined(M) && M < bound`. -/
def definedAndBelow (m : Option Int) (bound : Int) : Bool :=
  match m with
  | some v => decide (v < bound)
  | none => false

/-- The condition written on line 16 of `shims.c`:
`OPENSSL_VERSION_NUMBER < 0x10100000L ||
 (defined(LIBRESSL_VERSION_NUMBER) && LIBRESSL_VERSION_NUMBER < 0x2070000fL)`.
`true` selects the `#if` branch (legacy), `false` the `#else` branch (modern). -/
def legacyPath (cfg : BuildConfig) : Bool :=
  decide (cfg.OPENSSL_VERSION_NUMBER < 0x10100000)
    || definedAndBelow cfg.LIBRESSL_VERSION_NUMBER 0x2070000f

/-! Section: the wrapped library, as a parameter. -/

/-- The entry points of the wrapped library that `shims.c` calls, over an
arbitrary library state `σ`, together with `sizeof(HMAC_CTX)`.  Functions
returning a pointer return it with the new state; `void` functions return the
new state. -/
structure Lib (σ : Type) where
  sizeof_HMAC_CTX : Nat
  OPENSSL_malloc : Nat → σ → Ptr × σ
  OPENSSL_free : Ptr → σ → σ
  HMAC_CTX_init : Ptr → σ → σ
  HMAC_CTX_cleanup : Ptr → σ → σ
  HMAC_CTX_new : σ → Ptr × σ
  HMAC_CTX_free : Ptr → σ → σ
  EVP_MD_CTX_create : σ → Ptr × σ
  EVP_MD_CTX_destroy : Ptr → σ → σ
  EVP_MD_CTX_new : σ → Ptr × σ
  EVP_MD_CTX_free : Ptr → σ → σ

/-! Section: the shims. -/

/-- The `#if` branch of `AWSCRYPTO_HMAC_CTX_new` (lines 17-21). -/
def AWSCRYPTO_HMAC_CTX_new_legacy {σ : Type} (lib : Lib σ) (s : σ) : Ptr × σ :=
  let r := lib.OPENSSL_malloc lib.sizeof_HMAC_CTX s
  let ctx := r.1
  if ctx ≠ NULL then
    (ctx, lib.HMAC_CTX_init ctx r.2)
  else
    (ctx, r.2)

/-- The `#else` branch of `AWSCRYPTO_HMAC_CTX_new` (line 23). -/
def AWSCRYPTO_HMAC_CTX_new_modern {σ : Type} (lib : Lib σ) (s : σ) : Ptr × σ :=
  lib.HMAC_CTX_new s

/-- `HMAC_CTX *AWSCRYPTO_HMAC_CTX_new()` with its `#if` (lines 15-25). -/
def AWSCRYPTO_HMAC_CTX_new {σ : Type} (cfg : BuildConfig) (lib : Lib σ) (s : σ) : Ptr × σ :=
  if decide (cfg.OPENSSL_VERSION_NUMBER < 0x10100000)
      || definedAndBelow cfg.LIBRESSL_VERSION_NUMBER 0x2070000f then
    AWSCRYPTO_HMAC_CTX_new_legacy lib s
  else
    AWSCRYPTO_HMAC_CTX_new_modern lib s

/-- The `#if` branch of `AWSCRYPTO_HMAC_CTX_free` (lines 29-32). -/
def AWSCRYPTO_HMAC_CTX_free_legacy {σ : Type} (lib : Lib σ) (ctx : Ptr) (s : σ) : σ :=
  if ctx ≠ NULL then
    lib.OPENSSL_free ctx (lib.HMAC_CTX_cleanup ctx s)
  else
    s

/-- The `#else` branch of `AWSCRYPTO_HMAC_CTX_free` (line 34). -/
def AWSCRYPTO_HMAC_CTX_free_modern {σ : Type} (lib : Lib σ) (ctx : Ptr) (s : σ) : σ :=
  lib.HMAC_CTX_free ctx s

/-- `void AWSCRYPTO_HMAC_CTX_free(HMAC_CTX* ctx)` with its `#if` (lines 27-36). -/
def AWSCRYPTO_HMAC_CTX_free {σ : Type} (cfg : BuildConfig) (lib : Lib σ) (ctx : Ptr) (s : σ) : σ :=
  if decide (cfg.OPENSSL_VERSION_NUMBER < 0x10100000)
      || definedAndBelow cfg.LIBRESSL_VERSION_NUMBER 0x2070000f then
    AWSCRYPTO_HMAC_CTX_free_legacy lib ctx s
  else
    AWSCRYPTO_HMAC_CTX_free_modern lib ctx s

/-- The `#if` branch of `AWSCRYPTO_EVP_MD_CTX_new` (line 40). -/
def AWSCRYPTO_EVP_MD_CTX_new_legacy {σ : Type} (lib : Lib σ) (s : σ) : Ptr × σ :=
  lib.EVP_MD_CTX_create s

/-- The `#else` branch of `AWSCRYPTO_EVP_MD_CTX_new` (line 42). -/
def AWSCRYPTO_EVP_MD_CTX_new_modern {σ : Type} (lib : Lib σ) (s : σ) : Ptr × σ :=
  lib.EVP_MD_CTX_new s

/-- `EVP_MD_CTX *AWSCRYPTO_EVP_MD_CTX_new(void)` with its `#if` (lines 38-44). -/
def AWSCRYPTO_EVP_MD_CTX_new {σ : Type} (cfg : BuildConfig) (lib : Lib σ) (s : σ) : Ptr × σ :=
  if decide (cfg.OPENSSL_VERSION_NUMBER < 0x10100000)
      || definedAndBelow cfg.LIBRESSL_VERSION_NUMBER 0x2070000f then
    AWSCRYPTO_EVP_MD_CTX_new_legacy lib s
  else
    AWSCRYPTO_EVP_MD_CTX_new_modern lib s

/-- The `#if` branch of `AWSCRYPTO_EVP_MD_CTX_free` (lines 48-50). -/
def AWSCRYPTO_EVP_MD_CTX_free_legacy {σ : Type} (lib : Lib σ) (ctx : Ptr) (s : σ) : σ :=
  if ctx ≠ NULL then
    lib.EVP_MD_CTX_destroy ctx s
  else
    s

/-- The `#else` branch of `AWSCRYPTO_EVP_MD_CTX_free` (line 52). -/
def AWSCRYPTO_EVP_MD_CTX_free_modern {σ : Type} (lib : Lib σ) (ctx : Ptr) (s : σ) : σ :=
  lib.EVP_MD_CTX_free ctx s

/-- `void AWSCRYPTO_EVP_MD_CTX_free(EVP_MD_CTX *ctx)` with its `#if` (lines 46-54). -/
def AWSCRYPTO_EVP_MD_CTX_free {σ : Type} (cfg : BuildConfig) (lib : Lib σ) (ctx : Ptr) (s : σ) : σ :=
  if decide (cfg.OPENSSL_VERSION_NUMBER < 0x10100000)
      || definedAndBelow cfg.LIBRESSL_VERSION_NUMBER 0x2070000f then
    AWSCRYPTO_EVP_MD_CTX_free_legacy lib ctx s
  else
    AWSCRYPTO_EVP_MD_CTX_free_modern lib ctx s

/-! Section: instrumentation: the library calls a shim makes. -/

/-- One call into the wrapped library, with its arguments and, for the
allocating entry points, the pointer it returned. -/
inductive Call where
  | OPENSSL_malloc (size : Nat) (ret : Ptr)
  | OPENSSL_free (p : Ptr)
  | HMAC_CTX_init (p : Ptr)
  | HMAC_CTX_cleanup (p : Ptr)
  | HMAC_CTX_new (ret : Ptr)
  | HMAC_CTX_free (p : Ptr)
  | EVP_MD_CTX_create (ret : Ptr)
  | EVP_MD_CTX_destroy (p : Ptr)
  | EVP_MD_CTX_new (ret : Ptr)
  | EVP_MD_CTX_free (p : Ptr)
deriving DecidableEq, Repr

/-- The library `lib`, instrumented: every entry point behaves as in `lib` and
appends a record of the call to a log kept next to the library state. -/
def traced {σ : Type} (lib : Lib σ) : Lib (σ × List Call) where
  sizeof_HMAC_CTX := lib.sizeof_HMAC_CTX
  OPENSSL_malloc := fun n st =>
    ((lib.OPENSSL_malloc n st.1).1,
      ((lib.OPENSSL_malloc n st.1).2, st.2 ++ [Call.OPENSSL_malloc n (lib.OPENSSL_malloc n st.1).1]))
  OPENSSL_free := fun p st => (lib.OPENSSL_free p st.1, st.2 ++ [Call.OPENSSL_free p])
  HMAC_CTX_init := fun p st => (lib.HMAC_CTX_init p st.1, st.2 ++ [Call.HMAC_CTX_init p])
  HMAC_CTX_cleanup := fun p st => (lib.HMAC_CTX_cleanup p st.1, st.2 ++ [Call.HMAC_CTX_cleanup p])
  HMAC_CTX_new := fun st =>
    ((lib.HMAC_CTX_new st.1).1,
      ((lib.HMAC_CTX_new st.1).2, st.2 ++ [Call.HMAC_CTX_new (lib.HMAC_CTX_new st.1).1]))
  HMAC_CTX_free := fun p st => (lib.HMAC_CTX_free p st.1, st.2 ++ [Call.HMAC_CTX_free p])
  EVP_MD_CTX_create := fun st =>
    ((lib.EVP_MD_CTX_create st.1).1,
      ((lib.EVP_MD_CTX_create st.1).2,
        st.2 ++ [Call.EVP_MD_CTX_create (lib.EVP_MD_CTX_create st.1).1]))
  EVP_MD_CTX_destroy := fun p st =>
    (lib.EVP_MD_CTX_destroy p st.1, st.2 ++ [Call.EVP_MD_CTX_destroy p])
  EVP_MD_CTX_new := fun st =>
    ((lib.EVP_MD_CTX_new st.1).1,
      ((lib.EVP_MD_CTX_new st.1).2, st.2 ++ [Call.EVP_MD_CTX_new (lib.EVP_MD_CTX_new st.1).1]))
  EVP_MD_CTX_free := fun p st => (lib.EVP_MD_CTX_free p st.1, st.2 ++ [Call.EVP_MD_CTX_free p])

/-- A raw-memory call: `OPENSSL_malloc` or `OPENSSL_free`. -/
def Call.isRawMemory : Call → Bool
  | Call.OPENSSL_malloc _ _ => true
  | Call.OPENSSL_free _ => true
  | _ => false

/-- An explicit in-place step: `HMAC_CTX_init` or `HMAC_CTX_cleanup`. -/
def Call.isInPlaceStep : Call → Bool
  | Call.HMAC_CTX_init _ => true
  | Call.HMAC_CTX_cleanup _ => true
  | _ => false

/-! Section: a reference heap model of the wrapped library. -/

/-- What a live block of the heap holds: raw memory of a given size, an
initialised HMAC context, or an initialised digest context. -/
inductive Kind where
  | raw (size : Nat)
  | hmac
  | digest
deriving DecidableEq, Repr

/-- The heap of the reference model: the live blocks, newest first, and a flag
that is set once the library has been used outside its contract (a null or dead
handle where a live one is required, a block of the wrong kind, a raw free of a
context that was not cleaned up).  Once the flag is set every entry point is a
no-op. -/
structure Heap where
  blocks : List (Ptr × Kind)
  fault : Bool
deriving DecidableEq, Repr

/-- The addresses of the live blocks, the set of live handles. -/
def Heap.live (h : Heap) : List Ptr := h.blocks.map Prod.fst

/-- Whether a block is live at address `p`. -/
def Heap.isLive (h : Heap) (p : Ptr) : Bool := h.blocks.any (fun b => b.1 == p)

/-- What the block at `p` holds; `none` when `p` is null or not live. -/
def Heap.kindAt (h : Heap) (p : Ptr) : Option Kind :=
  if p = NULL then none else (h.blocks.find? (fun b => b.1 == p)).map Prod.snd

/-- A new live block at `p`. -/
def Heap.insert (h : Heap) (p : Ptr) (k : Kind) : Heap :=
  { h with blocks := (p, k) :: h.blocks }

/-- The block at `p` now holds `k`. -/
def Heap.set (h : Heap) (p : Ptr) (k : Kind) : Heap :=
  { h with blocks := h.blocks.map (fun b => if b.1 = p then (p, k) else b) }

/-- The block at `p` is no longer live. -/
def Heap.remove (h : Heap) (p : Ptr) : Heap :=
  { h with blocks := h.blocks.filter (fun b => b.1 != p) }

/-- The library was used outside its contract. -/
def Heap.crash (h : Heap) : Heap := { h with fault := true }

/-- Allocation of one block holding `k`.  The allocator policy `pick` proposes
an address; the allocation fails (null, heap unchanged) when the proposal is
null or already live, so a successful allocation is always a fresh non-null
address. -/
def Heap.alloc (pick : Heap → Ptr) (k : Kind) (h : Heap) : Ptr × Heap :=
  if h.fault then (NULL, h)
  else if pick h = NULL ∨ h.isLive (pick h) = true then (NULL, h)
  else (pick h, h.insert (pick h) k)

/-- Release of the block at `p`, required to hold a context of kind `k`. -/
def Heap.release (k : Kind) (p : Ptr) (h : Heap) : Heap :=
  if h.fault then h
  else if h.kindAt p = some k then h.remove p
  else h.crash

/-- Modelled from the spec: the wrapped library (its allocator and the lifecycle
entry points of the two context types), which is external to the repository.
Following sections 3, 4.1 and 7 of the specification: a handle is created by an
allocation, which yields null when memory cannot be obtained; the legacy
convention is raw allocation, then an in-place initialiser, and an in-place
cleanup, then a raw free; the modern constructor and destructor do both steps
in one call and the destructors `HMAC_CTX_free`, `EVP_MD_CTX_free` and
`OPENSSL_free` accept null; `EVP_MD_CTX_destroy` does not, which is what the
null check of the shim protects against; releasing a handle twice or using a
released handle is outside the contract.  `pick` is the allocator policy and
`szH` is `sizeof(HMAC_CTX)`. -/
def heapLib (pick : Heap → Ptr) (szH : Nat) : Lib Heap where
  sizeof_HMAC_CTX := szH
  OPENSSL_malloc := fun n h => Heap.alloc pick (Kind.raw n) h
  OPENSSL_free := fun p h =>
    if h.fault then h
    else if p = NULL then h
    else match h.kindAt p with
      | some (Kind.raw _) => h.remove p
      | _ => h.crash
  HMAC_CTX_init := fun p h =>
    if h.fault then h
    else match h.kindAt p with
      | some (Kind.raw n) => if szH ≤ n then h.set p Kind.hmac else h.crash
      | _ => h.crash
  HMAC_CTX_cleanup := fun p h =>
    if h.fault then h
    else if h.kindAt p = some Kind.hmac then h.set p (Kind.raw szH)
    else h.crash
  HMAC_CTX_new := fun h => Heap.alloc pick Kind.hmac h
  HMAC_CTX_free := fun p h => if p = NULL then h else Heap.release Kind.hmac p h
  EVP_MD_CTX_create := fun h => Heap.alloc pick Kind.digest h
  EVP_MD_CTX_destroy := fun p h => Heap.release Kind.digest p h
  EVP_MD_CTX_new := fun h => Heap.alloc pick Kind.digest h
  EVP_MD_CTX_free := fun p h => if p = NULL then h else Heap.release Kind.digest p h

/-- An allocator policy that always proposes a fresh address: one past the
largest live address. -/
def bumpPick (h : Heap) : Ptr := h.live.foldr max 0 + 1

/-- An allocator policy with no memory left. -/
def noMemory (_h : Heap) : Ptr := NULL

/-- The empty heap. -/
def Heap.empty : Heap := { blocks := [], fault := false }

/-! Section: the digest scenario of the specification. -/

/-- The scenario of section 8 of the specification: allocate a digest context
with `alloc`, hand it to the update and finalise steps `steps` of the library (any
state transformer of the library that yields an output), release it with
`release`; the result is the output and the final state. -/
def digestScenario {σ Out : Type} (alloc : σ → Ptr × σ) (release : Ptr → σ → σ)
    (steps : Ptr → σ → Out × σ) (s : σ) : Out × σ :=
  ((steps (alloc s).1 (alloc s).2).1, release (alloc s).1 (steps (alloc s).1 (alloc s).2).2)

/-! Section: build configurations used as concrete inputs. -/

/-- OpenSSL 1.0.2: `OPENSSL_VERSION_NUMBER` is `0x1000200f`, LibreSSL macro undefined. -/
def openssl_1_0_2 : BuildConfig :=
  { OPENSSL_VERSION_NUMBER := 0x1000200f, LIBRESSL_VERSION_NUMBER := none }

/-- OpenSSL 1.1.1: `OPENSSL_VERSION_NUMBER` is `0x1010100f`, LibreSSL macro undefined. -/
def openssl_1_1_1 : BuildConfig :=
  { OPENSSL_VERSION_NUMBER := 0x1010100f, LIBRESSL_VERSION_NUMBER := none }

/-- LibreSSL 2.6: `OPENSSL_VERSION_NUMBER` is `0x20000000`, `LIBRESSL_VERSION_NUMBER`
is `0x2060000f`. -/
def libressl_2_6 : BuildConfig :=
  { OPENSSL_VERSION_NUMBER := 0x20000000, LIBRESSL_VERSION_NUMBER := some 0x2060000f }

/-- LibreSSL 2.7: `OPENSSL_VERSION_NUMBER` is `0x20000000`, `LIBRESSL_VERSION_NUMBER`
is `0x2070000f`. -/
def libressl_2_7 : BuildConfig :=
  { OPENSSL_VERSION_NUMBER := 0x20000000, LIBRESSL_VERSION_NUMBER := some 0x2070000f }

/-! Section: the preprocessor selection, unfolded. -/

theorem hmac_new_of_legacy {σ : Type} {cfg : BuildConfig} (hcfg : legacyPath cfg = true)
    (lib : Lib σ) (s : σ) :
    AWSCRYPTO_HMAC_CTX_new cfg lib s = AWSCRYPTO_HMAC_CTX_new_legacy lib s := by
  unfold legacyPath at hcfg
  simp only [AWSCRYPTO_HMAC_CTX_new, hcfg, if_true]

theorem hmac_new_of_modern {σ : Type} {cfg : BuildConfig} (hcfg : legacyPath cfg = false)
    (lib : Lib σ) (s : σ) :
    AWSCRYPTO_HMAC_CTX_new cfg lib s = AWSCRYPTO_HMAC_CTX_new_modern lib s := by
  unfold legacyPath at hcfg
  simp [AWSCRYPTO_HMAC_CTX_new, hcfg]

theorem hmac_free_of_legacy {σ : Type} {cfg : BuildConfig} (hcfg : legacyPath cfg = true)
    (lib : Lib σ) (ctx : Ptr) (s : σ) :
    AWSCRYPTO_HMAC_CTX_free cfg lib ctx s = AWSCRYPTO_HMAC_CTX_free_legacy lib ctx s := by
  unfold legacyPath at hcfg
  simp only [AWSCRYPTO_HMAC_CTX_free, hcfg, if_true]

theorem hmac_free_of_modern {σ : Type} {cfg : BuildConfig} (hcfg : legacyPath cfg = false)
    (lib : Lib σ) (ctx : Ptr) (s : σ) :
    AWSCRYPTO_HMAC_CTX_free cfg lib ctx s = AWSCRYPTO_HMAC_CTX_free_modern lib ctx s := by
  unfold legacyPath at hcfg
  simp [AWSCRYPTO_HMAC_CTX_free, hcfg]

theorem md_new_of_legacy {σ : Type} {cfg : BuildConfig} (hcfg : legacyPath cfg = true)
    (lib : Lib σ) (s : σ) :
    AWSCRYPTO_EVP_MD_CTX_new cfg lib s = AWSCRYPTO_EVP_MD_CTX_new_legacy lib s := by
  unfold legacyPath at hcfg
  simp only [AWSCRYPTO_EVP_MD_CTX_new, hcfg, if_true]

theorem md_new_of_modern {σ : Type} {cfg : BuildConfig} (hcfg : legacyPath cfg = false)
    (lib : Lib σ) (s : σ) :
    AWSCRYPTO_EVP_MD_CTX_new cfg lib s = AWSCRYPTO_EVP_MD_CTX_new_modern lib s := by
  unfold legacyPath at hcfg
  simp [AWSCRYPTO_EVP_MD_CTX_new, hcfg]

theorem md_free_of_legacy {σ : Type} {cfg : BuildConfig} (hcfg : legacyPath cfg = true)
    (lib : Lib σ) (ctx : Ptr) (s : σ) :
    AWSCRYPTO_EVP_MD_CTX_free cfg lib ctx s = AWSCRYPTO_EVP_MD_CTX_free_legacy lib ctx s := by
  unfold legacyPath at hcfg
  simp only [AWSCRYPTO_EVP_MD_CTX_free, hcfg, if_true]

theorem md_free_of_modern {σ : Type} {cfg : BuildConfig} (hcfg : legacyPath cfg = false)
    (lib : Lib σ) (ctx : Ptr) (s : σ) :
    AWSCRYPTO_EVP_MD_CTX_free cfg lib ctx s = AWSCRYPTO_EVP_MD_CTX_free_modern lib ctx s := by
  unfold legacyPath at hcfg
  simp [AWSCRYPTO_EVP_MD_CTX_free, hcfg]

theorem legacyPath_cases (cfg : BuildConfig) : legacyPath cfg = true ∨ legacyPath cfg = false := by
  cases legacyPath cfg <;> simp

theorem legacyPath_false_iff (v : Int) (l : Option Int) :
    legacyPath { OPENSSL_VERSION_NUMBER := v, LIBRESSL_VERSION_NUMBER := l } = false ↔
      0x10100000 ≤ v ∧ ∀ x, l = some x → 0x2070000f ≤ x := by
  cases l with
  | none => simp [legacyPath, definedAndBelow]
  | some x => simp [legacyPath, definedAndBelow]

/-! Section: the instrumentation does not change what a shim computes. -/

theorem traced_hmac_new {σ : Type} (cfg : BuildConfig) (lib : Lib σ) (s : σ) (log : List Call) :
    (AWSCRYPTO_HMAC_CTX_new cfg (traced lib) (s, log)).1 = (AWSCRYPTO_HMAC_CTX_new cfg lib s).1 ∧
    (AWSCRYPTO_HMAC_CTX_new cfg (traced lib) (s, log)).2.1 = (AWSCRYPTO_HMAC_CTX_new cfg lib s).2 := by
  unfold AWSCRYPTO_HMAC_CTX_new AWSCRYPTO_HMAC_CTX_new_legacy AWSCRYPTO_HMAC_CTX_new_modern
  split
  · simp only [traced]
    split <;> simp
  · simp [traced]

theorem traced_hmac_free {σ : Type} (cfg : BuildConfig) (lib : Lib σ) (ctx : Ptr) (s : σ)
    (log : List Call) :
    (AWSCRYPTO_HMAC_CTX_free cfg (traced lib) ctx (s, log)).1 =
      AWSCRYPTO_HMAC_CTX_free cfg lib ctx s := by
  unfold AWSCRYPTO_HMAC_CTX_free AWSCRYPTO_HMAC_CTX_free_legacy AWSCRYPTO_HMAC_CTX_free_modern
  split
  · split <;> simp [traced]
  · simp [traced]

theorem traced_md_new {σ : Type} (cfg : BuildConfig) (lib : Lib σ) (s : σ) (log : List Call) :
    (AWSCRYPTO_EVP_MD_CTX_new cfg (traced lib) (s, log)).1 =
      (AWSCRYPTO_EVP_MD_CTX_new cfg lib s).1 ∧
    (AWSCRYPTO_EVP_MD_CTX_new cfg (traced lib) (s, log)).2.1 =
      (AWSCRYPTO_EVP_MD_CTX_new cfg lib s).2 := by
  unfold AWSCRYPTO_EVP_MD_CTX_new AWSCRYPTO_EVP_MD_CTX_new_legacy AWSCRYPTO_EVP_MD_CTX_new_modern
  split <;> simp [traced]

theorem traced_md_free {σ : Type} (cfg : BuildConfig) (lib : Lib σ) (ctx : Ptr) (s : σ)
    (log : List Call) :
    (AWSCRYPTO_EVP_MD_CTX_free cfg (traced lib) ctx (s, log)).1 =
      AWSCRYPTO_EVP_MD_CTX_free cfg lib ctx s := by
  unfold AWSCRYPTO_EVP_MD_CTX_free AWSCRYPTO_EVP_MD_CTX_free_legacy
    AWSCRYPTO_EVP_MD_CTX_free_modern
  split
  · split <;> simp [traced]
  · simp [traced]

/-! Section: path selection (C9, C10). -/

/-- C9: for every build configuration (any `OPENSSL_VERSION_NUMBER`, with
`LIBRESSL_VERSION_NUMBER` undefined or defined to any value) the four shims are
compiled from the same branch: either the line-16 condition holds and each of
the four functions is its legacy branch, or it does not hold and each of the
four is its modern branch; so the release a handle meets is the one of the path
that allocated it.  The two branches of every function are different programs:
on any library and any state they make different library calls, so exactly one
of the two is selected. -/
theorem path_selection_uniform (cfg : BuildConfig) :
    ((legacyPath cfg = true ∧
        ∀ (σ : Type) (lib : Lib σ) (ctx : Ptr) (s : σ),
          AWSCRYPTO_HMAC_CTX_new cfg lib s = AWSCRYPTO_HMAC_CTX_new_legacy lib s ∧
          AWSCRYPTO_HMAC_CTX_free cfg lib ctx s = AWSCRYPTO_HMAC_CTX_free_legacy lib ctx s ∧
          AWSCRYPTO_EVP_MD_CTX_new cfg lib s = AWSCRYPTO_EVP_MD_CTX_new_legacy lib s ∧
          AWSCRYPTO_EVP_MD_CTX_free cfg lib ctx s = AWSCRYPTO_EVP_MD_CTX_free_legacy lib ctx s) ∨
      (legacyPath cfg = false ∧
        ∀ (σ : Type) (lib : Lib σ) (ctx : Ptr) (s : σ),
          AWSCRYPTO_HMAC_CTX_new cfg lib s = AWSCRYPTO_HMAC_CTX_new_modern lib s ∧
          AWSCRYPTO_HMAC_CTX_free cfg lib ctx s = AWSCRYPTO_HMAC_CTX_free_modern lib ctx s ∧
          AWSCRYPTO_EVP_MD_CTX_new cfg lib s = AWSCRYPTO_EVP_MD_CTX_new_modern lib s ∧
          AWSCRYPTO_EVP_MD_CTX_free cfg lib ctx s = AWSCRYPTO_EVP_MD_CTX_free_modern lib ctx s)) ∧
    (∀ (σ : Type) (lib : Lib σ) (ctx : Ptr) (s : σ) (log : List Call),
      AWSCRYPTO_HMAC_CTX_new_legacy (traced lib) (s, log) ≠
        AWSCRYPTO_HMAC_CTX_new_modern (traced lib) (s, log) ∧
      AWSCRYPTO_HMAC_CTX_free_legacy (traced lib) ctx (s, log) ≠
        AWSCRYPTO_HMAC_CTX_free_modern (traced lib) ctx (s, log) ∧
      AWSCRYPTO_EVP_MD_CTX_new_legacy (traced lib) (s, log) ≠
        AWSCRYPTO_EVP_MD_CTX_new_modern (traced lib) (s, log) ∧
      AWSCRYPTO_EVP_MD_CTX_free_legacy (traced lib) ctx (s, log) ≠
        AWSCRYPTO_EVP_MD_CTX_free_modern (traced lib) ctx (s, log)) := by
  refine ⟨?_, ?_⟩
  · rcases legacyPath_cases cfg with h | h
    · exact Or.inl ⟨h, fun σ lib ctx s =>
        ⟨hmac_new_of_legacy h lib s, hmac_free_of_legacy h lib ctx s,
          md_new_of_legacy h lib s, md_free_of_legacy h lib ctx s⟩⟩
    · exact Or.inr ⟨h, fun σ lib ctx s =>
        ⟨hmac_new_of_modern h lib s, hmac_free_of_modern h lib ctx s,
          md_new_of_modern h lib s, md_free_of_modern h lib ctx s⟩⟩
  · intro σ lib ctx s log
    refine ⟨?_, ?_, ?_, ?_⟩
    · intro h
      have h2 := congrArg (fun r => r.2.2) h
      unfold AWSCRYPTO_HMAC_CTX_new_legacy AWSCRYPTO_HMAC_CTX_new_modern at h2
      by_cases hp : (lib.OPENSSL_malloc lib.sizeof_HMAC_CTX s).1 = NULL
      · simp [traced, hp] at h2
      · have h3 := congrArg List.length h2
        simp [traced, hp] at h3
    · intro h
      have h2 := congrArg (fun r => (r.2).length) h
      unfold AWSCRYPTO_HMAC_CTX_free_legacy AWSCRYPTO_HMAC_CTX_free_modern at h2
      by_cases hp : ctx = NULL
      · simp [traced, hp] at h2
      · simp [traced, hp] at h2
    · intro h
      have h2 := congrArg (fun r => r.2.2) h
      simp [AWSCRYPTO_EVP_MD_CTX_new_legacy, AWSCRYPTO_EVP_MD_CTX_new_modern, traced] at h2
    · intro h
      have h2 := congrArg (fun r => r.2) h
      unfold AWSCRYPTO_EVP_MD_CTX_free_legacy AWSCRYPTO_EVP_MD_CTX_free_modern at h2
      by_cases hp : ctx = NULL
      · have h3 := congrArg List.length h2
        simp [traced, hp] at h3
      · simp [traced, hp] at h2

/-- C10: the selection is monotone in the two version numbers.  With the
LibreSSL macro defined in both configurations, or undefined in both, a
configuration that selects the modern path keeps selecting it when either
version number grows.  With the macro undefined the legacy path is selected
exactly when `OPENSSL_VERSION_NUMBER < 0x10100000`; with the macro defined
below `0x2070000f` the legacy path is selected whatever
`OPENSSL_VERSION_NUMBER` is. -/
theorem path_selection_monotone (v w : Int) :
    (∀ l m : Int, v ≤ w → l ≤ m →
      legacyPath { OPENSSL_VERSION_NUMBER := v, LIBRESSL_VERSION_NUMBER := some l } = false →
      legacyPath { OPENSSL_VERSION_NUMBER := w, LIBRESSL_VERSION_NUMBER := some m } = false) ∧
    (v ≤ w →
      legacyPath { OPENSSL_VERSION_NUMBER := v, LIBRESSL_VERSION_NUMBER := none } = false →
      legacyPath { OPENSSL_VERSION_NUMBER := w, LIBRESSL_VERSION_NUMBER := none } = false) ∧
    (legacyPath { OPENSSL_VERSION_NUMBER := v, LIBRESSL_VERSION_NUMBER := none } = true ↔
      v < 0x10100000) ∧
    (∀ l : Int, l < 0x2070000f →
      legacyPath { OPENSSL_VERSION_NUMBER := v, LIBRESSL_VERSION_NUMBER := some l } = true) := by
  refine ⟨?_, ?_, ?_, ?_⟩
  · intro l m hvw hlm h
    rw [legacyPath_false_iff] at h ⊢
    obtain ⟨h1, h2⟩ := h
    refine ⟨le_trans h1 hvw, ?_⟩
    intro x hx
    cases hx
    exact le_trans (h2 l rfl) hlm
  · intro hvw h
    rw [legacyPath_false_iff] at h ⊢
    exact ⟨le_trans h.1 hvw, fun x hx => by cases hx⟩
  · simp [legacyPath, definedAndBelow]
  · intro l hl
    simp [legacyPath, definedAndBelow, hl]

/-- Witness of C10 at LibreSSL 2.7 (`0x20000000`, `0x2070000f`), which selects
the modern path, and the larger pair (`0x30000000`, `0x3050000f`). -/
theorem path_selection_monotone_witness :
    ((0x20000000 : Int) ≤ 0x30000000 ∧ (0x2070000f : Int) ≤ 0x3050000f ∧
      legacyPath { OPENSSL_VERSION_NUMBER := 0x20000000,
                   LIBRESSL_VERSION_NUMBER := some 0x2070000f } = false) ∧
    legacyPath { OPENSSL_VERSION_NUMBER := 0x30000000,
                 LIBRESSL_VERSION_NUMBER := some 0x3050000f } = false :=
  ⟨⟨by decide, by decide, by decide⟩,
    (path_selection_monotone 0x20000000 0x30000000).1 0x2070000f 0x3050000f
      (by decide) (by decide) (by decide)⟩

/-! Section: release of the null handle (C1). -/

/-- C1: releasing the null handle is a no-op for both context types on both
paths.  On the legacy path the shim makes no library call at all (the call log
is unchanged, so neither `HMAC_CTX_cleanup`, `EVP_MD_CTX_destroy` nor
`OPENSSL_free` runs) and the state is unchanged for every library.  On the
modern path the shim hands null to the library destructor, so the state is
unchanged given that the destructors of the library accept null
(`HMAC_CTX_free(NULL)` and `EVP_MD_CTX_free(NULL)` do nothing). -/
theorem free_null_noop {σ : Type} (cfg : BuildConfig) (lib : Lib σ) (s : σ)
    (hlib : legacyPath cfg = false →
      lib.HMAC_CTX_free NULL s = s ∧ lib.EVP_MD_CTX_free NULL s = s) :
    AWSCRYPTO_HMAC_CTX_free cfg lib NULL s = s ∧
    AWSCRYPTO_EVP_MD_CTX_free cfg lib NULL s = s ∧
    (legacyPath cfg = true → ∀ log : List Call,
      AWSCRYPTO_HMAC_CTX_free cfg (traced lib) NULL (s, log) = (s, log) ∧
      AWSCRYPTO_EVP_MD_CTX_free cfg (traced lib) NULL (s, log) = (s, log)) := by
  refine ⟨?_, ?_, ?_⟩
  · rcases legacyPath_cases cfg with h | h
    · rw [hmac_free_of_legacy h]
      simp [AWSCRYPTO_HMAC_CTX_free_legacy]
    · rw [hmac_free_of_modern h]
      exact (hlib h).1
  · rcases legacyPath_cases cfg with h | h
    · rw [md_free_of_legacy h]
      simp [AWSCRYPTO_EVP_MD_CTX_free_legacy]
    · rw [md_free_of_modern h]
      exact (hlib h).2
  · intro h log
    rw [hmac_free_of_legacy h, md_free_of_legacy h]
    simp [AWSCRYPTO_HMAC_CTX_free_legacy, AWSCRYPTO_EVP_MD_CTX_free_legacy]

/-- Witness of C1 on the modern path (LibreSSL 2.7) with the reference heap
library and a heap holding one HMAC context. -/
theorem free_null_noop_witness :
    legacyPath libressl_2_7 = false ∧
    AWSCRYPTO_HMAC_CTX_free libressl_2_7 (heapLib bumpPick 8) NULL
        { blocks := [(1, Kind.hmac)], fault := false } =
      { blocks := [(1, Kind.hmac)], fault := false } ∧
    AWSCRYPTO_EVP_MD_CTX_free libressl_2_7 (heapLib bumpPick 8) NULL
        { blocks := [(1, Kind.hmac)], fault := false } =
      { blocks := [(1, Kind.hmac)], fault := false } :=
  ⟨by decide,
   (free_null_noop libressl_2_7 (heapLib bumpPick 8)
      { blocks := [(1, Kind.hmac)], fault := false } (fun _ => ⟨rfl, rfl⟩)).1,
   (free_null_noop libressl_2_7 (heapLib bumpPick 8)
      { blocks := [(1, Kind.hmac)], fault := false } (fun _ => ⟨rfl, rfl⟩)).2.1⟩

/-! Section: allocation failure (C2). -/

/-- C2: for both context types and on both paths the shim returns null exactly
when the underlying allocation call returns null (`OPENSSL_malloc` or
`HMAC_CTX_new` for the HMAC context, `EVP_MD_CTX_create` or `EVP_MD_CTX_new`
for the digest context).  On the legacy HMAC path, when `OPENSSL_malloc`
returns null the only library call made is that `OPENSSL_malloc`
(`HMAC_CTX_init` is not called) and the state is the one `OPENSSL_malloc`
left. -/
theorem new_null_iff_alloc_fails {σ : Type} (cfg : BuildConfig) (lib : Lib σ) (s : σ) :
    ((AWSCRYPTO_HMAC_CTX_new cfg lib s).1 = NULL ↔
      (if legacyPath cfg = true then (lib.OPENSSL_malloc lib.sizeof_HMAC_CTX s).1
        else (lib.HMAC_CTX_new s).1) = NULL) ∧
    ((AWSCRYPTO_EVP_MD_CTX_new cfg lib s).1 = NULL ↔
      (if legacyPath cfg = true then (lib.EVP_MD_CTX_create s).1
        else (lib.EVP_MD_CTX_new s).1) = NULL) ∧
    (legacyPath cfg = true → (lib.OPENSSL_malloc lib.sizeof_HMAC_CTX s).1 = NULL →
      ∀ log : List Call,
        AWSCRYPTO_HMAC_CTX_new cfg (traced lib) (s, log) =
          (NULL, ((lib.OPENSSL_malloc lib.sizeof_HMAC_CTX s).2,
            log ++ [Call.OPENSSL_malloc lib.sizeof_HMAC_CTX NULL]))) := by
  refine ⟨?_, ?_, ?_⟩
  · rcases legacyPath_cases cfg with h | h
    · rw [hmac_new_of_legacy h]
      unfold AWSCRYPTO_HMAC_CTX_new_legacy
      by_cases hp : (lib.OPENSSL_malloc lib.sizeof_HMAC_CTX s).1 = NULL <;> simp [h, hp]
    · rw [hmac_new_of_modern h]
      simp [h, AWSCRYPTO_HMAC_CTX_new_modern]
  · rcases legacyPath_cases cfg with h | h
    · rw [md_new_of_legacy h]
      simp [h, AWSCRYPTO_EVP_MD_CTX_new_legacy]
    · rw [md_new_of_modern h]
      simp [h, AWSCRYPTO_EVP_MD_CTX_new_modern]
  · intro h hp log
    rw [hmac_new_of_legacy h]
    simp [AWSCRYPTO_HMAC_CTX_new_legacy, traced, hp]

/-- Witness of C2 on the legacy path (OpenSSL 1.0.2) with an allocator that
has no memory left: the shim returns null, the heap is unchanged and the log
holds the one failed `OPENSSL_malloc`. -/
theorem new_null_iff_alloc_fails_witness :
    (legacyPath openssl_1_0_2 = true ∧
      ((heapLib noMemory 8).OPENSSL_malloc (heapLib noMemory 8).sizeof_HMAC_CTX Heap.empty).1
        = NULL) ∧
    AWSCRYPTO_HMAC_CTX_new openssl_1_0_2 (traced (heapLib noMemory 8)) (Heap.empty, []) =
      (NULL, (Heap.empty, [Call.OPENSSL_malloc 8 NULL])) :=
  ⟨⟨by decide, by decide⟩,
    (new_null_iff_alloc_fails openssl_1_0_2 (heapLib noMemory 8) Heap.empty).2.2
      (by decide) (by decide) []⟩

/-! Section: order of the legacy HMAC steps (C3). -/

/-- C3: on the legacy path, a successful `AWSCRYPTO_HMAC_CTX_new` makes exactly
two library calls, `OPENSSL_malloc(sizeof(HMAC_CTX))` and then `HMAC_CTX_init`
on the pointer that `OPENSSL_malloc` returned, and returns that pointer with
the state `HMAC_CTX_init` left; `AWSCRYPTO_HMAC_CTX_free` on a non-null handle
makes exactly two library calls, `HMAC_CTX_cleanup` on the handle and then
`OPENSSL_free` on the handle. -/
theorem legacy_hmac_step_order {σ : Type} (cfg : BuildConfig) (lib : Lib σ) (s : σ)
    (log : List Call) (hcfg : legacyPath cfg = true) :
    ((AWSCRYPTO_HMAC_CTX_new cfg (traced lib) (s, log)).1 ≠ NULL →
      AWSCRYPTO_HMAC_CTX_new cfg (traced lib) (s, log) =
        ((lib.OPENSSL_malloc lib.sizeof_HMAC_CTX s).1,
          (lib.HMAC_CTX_init (lib.OPENSSL_malloc lib.sizeof_HMAC_CTX s).1
              (lib.OPENSSL_malloc lib.sizeof_HMAC_CTX s).2,
            log ++ [Call.OPENSSL_malloc lib.sizeof_HMAC_CTX
                      (lib.OPENSSL_malloc lib.sizeof_HMAC_CTX s).1,
                    Call.HMAC_CTX_init (lib.OPENSSL_malloc lib.sizeof_HMAC_CTX s).1]))) ∧
    (∀ ctx : Ptr, ctx ≠ NULL →
      AWSCRYPTO_HMAC_CTX_free cfg (traced lib) ctx (s, log) =
        (lib.OPENSSL_free ctx (lib.HMAC_CTX_cleanup ctx s),
          log ++ [Call.HMAC_CTX_cleanup ctx, Call.OPENSSL_free ctx])) := by
  refine ⟨?_, ?_⟩
  · rw [hmac_new_of_legacy hcfg]
    unfold AWSCRYPTO_HMAC_CTX_new_legacy
    by_cases hp : (lib.OPENSSL_malloc lib.sizeof_HMAC_CTX s).1 = NULL
    · simp [traced, hp]
    · simp [traced, hp]
  · intro ctx hctx
    rw [hmac_free_of_legacy hcfg]
    simp [AWSCRYPTO_HMAC_CTX_free_legacy, traced, hctx]

/-- Witness of C3 on the legacy path (LibreSSL 2.6) with the reference heap
library: allocation from the empty heap, and release of handle `1`. -/
theorem legacy_hmac_step_order_witness :
    legacyPath libressl_2_6 = true ∧
    AWSCRYPTO_HMAC_CTX_new libressl_2_6 (traced (heapLib bumpPick 8)) (Heap.empty, []) =
      (1, ({ blocks := [(1, Kind.hmac)], fault := false },
        [Call.OPENSSL_malloc 8 1, Call.HMAC_CTX_init 1])) ∧
    AWSCRYPTO_HMAC_CTX_free libressl_2_6 (traced (heapLib bumpPick 8)) 1
        ({ blocks := [(1, Kind.hmac)], fault := false }, []) =
      (Heap.empty, [Call.HMAC_CTX_cleanup 1, Call.OPENSSL_free 1]) :=
  ⟨by decide,
    (legacy_hmac_step_order libressl_2_6 (heapLib bumpPick 8) Heap.empty [] (by decide)).1
      (by decide),
    (legacy_hmac_step_order libressl_2_6 (heapLib bumpPick 8)
      { blocks := [(1, Kind.hmac)], fault := false } [] (by decide)).2 1 (by decide)⟩

/-! Section: what the legacy path does for the digest context (C7). -/

/-- C7, as stated, fails: on the legacy path (OpenSSL 1.0.2) the shim does not
allocate a digest context in two steps.  From the empty heap,
`AWSCRYPTO_EVP_MD_CTX_new` makes the single library call `EVP_MD_CTX_create`
(no raw-memory call, no in-place step), and `AWSCRYPTO_EVP_MD_CTX_free` of the
handle makes the single call `EVP_MD_CTX_destroy` (again no raw-memory call and
no in-place step), whereas the HMAC shim does call `OPENSSL_malloc` and
`HMAC_CTX_init`. -/
theorem legacy_digest_not_two_step :
    legacyPath openssl_1_0_2 = true ∧
    (AWSCRYPTO_EVP_MD_CTX_new openssl_1_0_2 (traced (heapLib bumpPick 8)) (Heap.empty, [])).2.2
      = [Call.EVP_MD_CTX_create 1] ∧
    ¬ ((AWSCRYPTO_EVP_MD_CTX_new openssl_1_0_2 (traced (heapLib bumpPick 8))
          (Heap.empty, [])).2.2.any Call.isRawMemory = true ∧
       (AWSCRYPTO_EVP_MD_CTX_new openssl_1_0_2 (traced (heapLib bumpPick 8))
          (Heap.empty, [])).2.2.any Call.isInPlaceStep = true) ∧
    (AWSCRYPTO_EVP_MD_CTX_free openssl_1_0_2 (traced (heapLib bumpPick 8)) 1
        ({ blocks := [(1, Kind.digest)], fault := false }, [])).2
      = [Call.EVP_MD_CTX_destroy 1] ∧
    ¬ ((AWSCRYPTO_EVP_MD_CTX_free openssl_1_0_2 (traced (heapLib bumpPick 8)) 1
          ({ blocks := [(1, Kind.digest)], fault := false }, [])).2.any Call.isInPlaceStep = true ∧
       (AWSCRYPTO_EVP_MD_CTX_free openssl_1_0_2 (traced (heapLib bumpPick 8)) 1
          ({ blocks := [(1, Kind.digest)], fault := false }, [])).2.any Call.isRawMemory = true) ∧
    (AWSCRYPTO_HMAC_CTX_new openssl_1_0_2 (traced (heapLib bumpPick 8)) (Heap.empty, [])).2.2
      = [Call.OPENSSL_malloc 8 1, Call.HMAC_CTX_init 1] := by
  decide

/-- C7, amended: on the legacy path the shim itself performs the two-step
convention for the HMAC context only (`OPENSSL_malloc(sizeof(HMAC_CTX))` then
`HMAC_CTX_init` on allocation, `HMAC_CTX_cleanup` then `OPENSSL_free` on
release of a non-null handle).  For the digest context it delegates: allocation
is the single library call `EVP_MD_CTX_create`, whose result it returns, and
release of a non-null handle is the single library call `EVP_MD_CTX_destroy`. -/
theorem legacy_digest_delegates {σ : Type} (cfg : BuildConfig) (lib : Lib σ) (s : σ)
    (log : List Call) (hcfg : legacyPath cfg = true) :
    AWSCRYPTO_EVP_MD_CTX_new cfg (traced lib) (s, log) =
      ((lib.EVP_MD_CTX_create s).1,
        ((lib.EVP_MD_CTX_create s).2, log ++ [Call.EVP_MD_CTX_create (lib.EVP_MD_CTX_create s).1])) ∧
    (∀ ctx : Ptr, ctx ≠ NULL →
      AWSCRYPTO_EVP_MD_CTX_free cfg (traced lib) ctx (s, log) =
        (lib.EVP_MD_CTX_destroy ctx s, log ++ [Call.EVP_MD_CTX_destroy ctx])) ∧
    ((lib.OPENSSL_malloc lib.sizeof_HMAC_CTX s).1 ≠ NULL →
      (AWSCRYPTO_HMAC_CTX_new cfg (traced lib) (s, log)).2.2 =
        log ++ [Call.OPENSSL_malloc lib.sizeof_HMAC_CTX
                  (lib.OPENSSL_malloc lib.sizeof_HMAC_CTX s).1,
                Call.HMAC_CTX_init (lib.OPENSSL_malloc lib.sizeof_HMAC_CTX s).1]) ∧
    (∀ ctx : Ptr, ctx ≠ NULL →
      (AWSCRYPTO_HMAC_CTX_free cfg (traced lib) ctx (s, log)).2 =
        log ++ [Call.HMAC_CTX_cleanup ctx, Call.OPENSSL_free ctx]) := by
  refine ⟨?_, ?_, ?_, ?_⟩
  · rw [md_new_of_legacy hcfg]
    simp [AWSCRYPTO_EVP_MD_CTX_new_legacy, traced]
  · intro ctx hctx
    rw [md_free_of_legacy hcfg]
    simp [AWSCRYPTO_EVP_MD_CTX_free_legacy, traced, hctx]
  · intro hp
    rw [hmac_new_of_legacy hcfg]
    simp [AWSCRYPTO_HMAC_CTX_new_legacy, traced, hp]
  · intro ctx hctx
    rw [hmac_free_of_legacy hcfg]
    simp [AWSCRYPTO_HMAC_CTX_free_legacy, traced, hctx]

/-- Witness of the amended C7 on the legacy path (LibreSSL 2.6) with the
reference heap library, from the empty heap. -/
theorem legacy_digest_delegates_witness :
    legacyPath libressl_2_6 = true ∧
    AWSCRYPTO_EVP_MD_CTX_new libressl_2_6 (traced (heapLib bumpPick 8)) (Heap.empty, []) =
      (1, ({ blocks := [(1, Kind.digest)], fault := false }, [Call.EVP_MD_CTX_create 1])) :=
  ⟨by decide,
    (legacy_digest_delegates libressl_2_6 (heapLib bumpPick 8) Heap.empty [] (by decide)).1⟩

/-! Section: the modern path is a delegation (C8). -/

/-- C8: on the modern path each shim is the library function it wraps:
`AWSCRYPTO_EVP_MD_CTX_new` is `EVP_MD_CTX_new`, `AWSCRYPTO_EVP_MD_CTX_free` is
`EVP_MD_CTX_free`, `AWSCRYPTO_HMAC_CTX_new` is `HMAC_CTX_new` and
`AWSCRYPTO_HMAC_CTX_free` is `HMAC_CTX_free`, as functions of the state; hence
the digest scenario (allocate, any update and finalise steps, release) run
through the shims yields the same output and final state as run directly on
the library constructor and destructor. -/
theorem modern_pure_delegation {σ Out : Type} (cfg : BuildConfig) (lib : Lib σ)
    (hcfg : legacyPath cfg = false) :
    AWSCRYPTO_EVP_MD_CTX_new cfg lib = lib.EVP_MD_CTX_new ∧
    AWSCRYPTO_EVP_MD_CTX_free cfg lib = lib.EVP_MD_CTX_free ∧
    AWSCRYPTO_HMAC_CTX_new cfg lib = lib.HMAC_CTX_new ∧
    AWSCRYPTO_HMAC_CTX_free cfg lib = lib.HMAC_CTX_free ∧
    ∀ (steps : Ptr → σ → Out × σ) (s : σ),
      digestScenario (AWSCRYPTO_EVP_MD_CTX_new cfg lib) (AWSCRYPTO_EVP_MD_CTX_free cfg lib)
          steps s =
        digestScenario lib.EVP_MD_CTX_new lib.EVP_MD_CTX_free steps s := by
  have h1 : AWSCRYPTO_EVP_MD_CTX_new cfg lib = lib.EVP_MD_CTX_new :=
    funext fun s => by rw [md_new_of_modern hcfg]; rfl
  have h2 : AWSCRYPTO_EVP_MD_CTX_free cfg lib = lib.EVP_MD_CTX_free :=
    funext fun p => funext fun s => by rw [md_free_of_modern hcfg]; rfl
  have h3 : AWSCRYPTO_HMAC_CTX_new cfg lib = lib.HMAC_CTX_new :=
    funext fun s => by rw [hmac_new_of_modern hcfg]; rfl
  have h4 : AWSCRYPTO_HMAC_CTX_free cfg lib = lib.HMAC_CTX_free :=
    funext fun p => funext fun s => by rw [hmac_free_of_modern hcfg]; rfl
  refine ⟨h1, h2, h3, h4, ?_⟩
  intro steps s
  rw [h1, h2]

/-- Witness of C8 on the modern path (OpenSSL 1.1.1) with the reference heap
library; the external steps are taken to output the handle they were given. -/
theorem modern_pure_delegation_witness :
    legacyPath openssl_1_1_1 = false ∧
    digestScenario (AWSCRYPTO_EVP_MD_CTX_new openssl_1_1_1 (heapLib bumpPick 8))
        (AWSCRYPTO_EVP_MD_CTX_free openssl_1_1_1 (heapLib bumpPick 8))
        (fun p h => (p, h)) Heap.empty =
      digestScenario (heapLib bumpPick 8).EVP_MD_CTX_new (heapLib bumpPick 8).EVP_MD_CTX_free
        (fun p h => (p, h)) Heap.empty :=
  ⟨by decide,
    (modern_pure_delegation openssl_1_1_1 (heapLib bumpPick 8) (by decide)).2.2.2.2
      (fun p h => (p, h)) Heap.empty⟩

/-! Section: the two paths agree for the caller (C4). -/

/-- C4: given a library whose modern constructor and destructor are the
counterparts of the legacy idiom (`HMAC_CTX_new` is `OPENSSL_malloc` followed,
on success, by `HMAC_CTX_init`; `HMAC_CTX_free` is, on a non-null handle,
`HMAC_CTX_cleanup` followed by `OPENSSL_free`, and nothing on null;
`EVP_MD_CTX_new` is `EVP_MD_CTX_create`; `EVP_MD_CTX_free` is
`EVP_MD_CTX_destroy` on a non-null handle and nothing on null), a build that
selects the modern path and a build that selects the legacy path give the same
result for each of the four operations, from every state and for every handle,
null included: the same returned handle and the same resulting state. -/
theorem modern_legacy_equivalent {σ : Type} (cfgL cfgM : BuildConfig) (lib : Lib σ)
    (hL : legacyPath cfgL = true) (hM : legacyPath cfgM = false)
    (hnew : ∀ s, lib.HMAC_CTX_new s =
      if (lib.OPENSSL_malloc lib.sizeof_HMAC_CTX s).1 = NULL then
        lib.OPENSSL_malloc lib.sizeof_HMAC_CTX s
      else ((lib.OPENSSL_malloc lib.sizeof_HMAC_CTX s).1,
        lib.HMAC_CTX_init (lib.OPENSSL_malloc lib.sizeof_HMAC_CTX s).1
          (lib.OPENSSL_malloc lib.sizeof_HMAC_CTX s).2))
    (hfree : ∀ p s, lib.HMAC_CTX_free p s =
      if p = NULL then s else lib.OPENSSL_free p (lib.HMAC_CTX_cleanup p s))
    (hmdnew : ∀ s, lib.EVP_MD_CTX_new s = lib.EVP_MD_CTX_create s)
    (hmdfree : ∀ p s, lib.EVP_MD_CTX_free p s =
      if p = NULL then s else lib.EVP_MD_CTX_destroy p s)
    (ctx : Ptr) (s : σ) :
    AWSCRYPTO_HMAC_CTX_new cfgM lib s = AWSCRYPTO_HMAC_CTX_new cfgL lib s ∧
    AWSCRYPTO_HMAC_CTX_free cfgM lib ctx s = AWSCRYPTO_HMAC_CTX_free cfgL lib ctx s ∧
    AWSCRYPTO_EVP_MD_CTX_new cfgM lib s = AWSCRYPTO_EVP_MD_CTX_new cfgL lib s ∧
    AWSCRYPTO_EVP_MD_CTX_free cfgM lib ctx s = AWSCRYPTO_EVP_MD_CTX_free cfgL lib ctx s := by
  refine ⟨?_, ?_, ?_, ?_⟩
  · rw [hmac_new_of_modern hM, hmac_new_of_legacy hL]
    unfold AWSCRYPTO_HMAC_CTX_new_modern AWSCRYPTO_HMAC_CTX_new_legacy
    rw [hnew s]
    by_cases hp : (lib.OPENSSL_malloc lib.sizeof_HMAC_CTX s).1 = NULL
    · simp only [hp, if_true, ne_eq, not_true_eq_false, if_false]
      exact Prod.ext hp rfl
    · simp [hp]
  · rw [hmac_free_of_modern hM, hmac_free_of_legacy hL]
    unfold AWSCRYPTO_HMAC_CTX_free_modern AWSCRYPTO_HMAC_CTX_free_legacy
    rw [hfree ctx s]
    by_cases hp : ctx = NULL <;> simp [hp]
  · rw [md_new_of_modern hM, md_new_of_legacy hL]
    exact hmdnew s
  · rw [md_free_of_modern hM, md_free_of_legacy hL]
    unfold AWSCRYPTO_EVP_MD_CTX_free_modern AWSCRYPTO_EVP_MD_CTX_free_legacy
    rw [hmdfree ctx s]
    by_cases hp : ctx = NULL <;> simp [hp]


/-! Section: facts about the reference heap. -/

theorem blocks_map_of_not_live (bs : List (Ptr × Kind)) (p : Ptr) (k : Kind)
    (hp : bs.any (fun b => b.1 == p) = false) :
    bs.map (fun b => if b.1 = p then (p, k) else b) = bs := by
  induction bs with
  | nil => rfl
  | cons b bs ih =>
    simp only [List.any_cons, Bool.or_eq_false_iff, beq_eq_false_iff_ne, ne_eq] at hp
    simp [hp.1, ih hp.2]

theorem blocks_filter_of_not_live (bs : List (Ptr × Kind)) (p : Ptr)
    (hp : bs.any (fun b => b.1 == p) = false) :
    bs.filter (fun b => b.1 != p) = bs := by
  induction bs with
  | nil => rfl
  | cons b bs ih =>
    simp only [List.any_cons, Bool.or_eq_false_iff, beq_eq_false_iff_ne, ne_eq] at hp
    simp [hp.1, ih hp.2]

theorem blocks_filter_map (bs : List (Ptr × Kind)) (p : Ptr) (k : Kind) :
    (bs.map (fun b => if b.1 = p then (p, k) else b)).filter (fun b => b.1 != p) =
      bs.filter (fun b => b.1 != p) := by
  induction bs with
  | nil => rfl
  | cons b bs ih =>
    by_cases hb : b.1 = p
    · simp [hb, ih]
    · simp [hb, ih]

theorem blocks_find_map (bs : List (Ptr × Kind)) (p : Ptr) (k k0 : Kind)
    (h : (bs.find? (fun b => b.1 == p)).map Prod.snd = some k0) :
    ((bs.map (fun b => if b.1 = p then (p, k) else b)).find? (fun b => b.1 == p)).map Prod.snd
      = some k := by
  induction bs with
  | nil => simp at h
  | cons b bs ih =>
    by_cases hb : b.1 = p
    · simp [hb]
    · simp [hb, List.find?_cons] at h ⊢
      obtain ⟨a, ha⟩ := h
      have := ih (by simp [ha])
      simpa using this

theorem Heap.kindAt_insert_self (h : Heap) (p : Ptr) (k : Kind) (hp : p ≠ NULL) :
    (h.insert p k).kindAt p = some k := by
  simp [Heap.kindAt, Heap.insert, hp]

theorem Heap.kindAt_insert_other (h : Heap) (p q : Ptr) (k : Kind) (hpq : p ≠ q) :
    (h.insert p k).kindAt q = h.kindAt q := by
  simp [Heap.kindAt, Heap.insert, List.find?_cons, hpq]

theorem Heap.set_insert (h : Heap) (p : Ptr) (k k2 : Kind) (hp : h.isLive p = false) :
    (h.insert p k).set p k2 = h.insert p k2 := by
  simp only [Heap.isLive] at hp
  simp [Heap.set, Heap.insert, blocks_map_of_not_live _ _ _ hp]

theorem Heap.remove_insert (h : Heap) (p : Ptr) (k : Kind) (hp : h.isLive p = false) :
    (h.insert p k).remove p = h := by
  simp only [Heap.isLive] at hp
  simp [Heap.remove, Heap.insert, blocks_filter_of_not_live _ _ hp]

theorem Heap.remove_insert_other (h : Heap) (p q : Ptr) (k : Kind) (hpq : p ≠ q) :
    (h.insert p k).remove q = (h.remove q).insert p k := by
  simp [Heap.remove, Heap.insert, hpq]

theorem Heap.remove_set (h : Heap) (p : Ptr) (k : Kind) :
    (h.set p k).remove p = h.remove p := by
  simp [Heap.remove, Heap.set, blocks_filter_map]

theorem Heap.kindAt_set (h : Heap) (p : Ptr) (k k0 : Kind) (hk : h.kindAt p = some k0) :
    (h.set p k).kindAt p = some k := by
  unfold Heap.kindAt at hk ⊢
  by_cases hp : p = NULL
  · simp [hp] at hk
  · simp only [hp, if_false] at hk ⊢
    exact blocks_find_map _ _ _ _ hk


theorem Heap.alloc_spec (pick : Heap → Ptr) (k : Kind) (h : Heap) :
    ((Heap.alloc pick k h).1 = NULL ∧ (Heap.alloc pick k h).2 = h) ∨
    ((Heap.alloc pick k h).1 ≠ NULL ∧ h.fault = false ∧
      h.isLive (Heap.alloc pick k h).1 = false ∧
      (Heap.alloc pick k h).2 = h.insert (Heap.alloc pick k h).1 k) := by
  unfold Heap.alloc
  by_cases hf : h.fault = true
  · simp [hf]
  · by_cases hp : pick h = NULL ∨ h.isLive (pick h) = true
    · simp [hf, hp]
    · have hp2 := hp
      simp only [not_or, Bool.not_eq_true] at hp2 hf
      simp [hf, hp, hp2.1, hp2.2]

/-- In the reference library the modern HMAC constructor is the legacy idiom. -/
theorem heapLib_hmac_new (pick : Heap → Ptr) (szH : Nat) (h : Heap) :
    (heapLib pick szH).HMAC_CTX_new h =
      if ((heapLib pick szH).OPENSSL_malloc (heapLib pick szH).sizeof_HMAC_CTX h).1 = NULL then
        (heapLib pick szH).OPENSSL_malloc (heapLib pick szH).sizeof_HMAC_CTX h
      else (((heapLib pick szH).OPENSSL_malloc (heapLib pick szH).sizeof_HMAC_CTX h).1,
        (heapLib pick szH).HMAC_CTX_init
          ((heapLib pick szH).OPENSSL_malloc (heapLib pick szH).sizeof_HMAC_CTX h).1
          ((heapLib pick szH).OPENSSL_malloc (heapLib pick szH).sizeof_HMAC_CTX h).2) := by
  simp only [heapLib]
  unfold Heap.alloc
  by_cases hf : h.fault = true
  · simp [hf]
  · by_cases hp : pick h = NULL ∨ h.isLive (pick h) = true
    · simp [hf, hp]
    · simp only [hf, hp, if_false]
      simp only [not_or, Bool.not_eq_true] at hp hf
      have hf2 : (h.insert (pick h) (Kind.raw szH)).fault = false := hf
      simp [hp.1, hf2, Heap.kindAt_insert_self _ _ _ hp.1, Heap.set_insert _ _ _ _ hp.2]

/-- In the reference library the modern HMAC destructor is the legacy idiom. -/
theorem heapLib_hmac_free (pick : Heap → Ptr) (szH : Nat) (p : Ptr) (h : Heap) :
    (heapLib pick szH).HMAC_CTX_free p h =
      if p = NULL then h
      else (heapLib pick szH).OPENSSL_free p ((heapLib pick szH).HMAC_CTX_cleanup p h) := by
  simp only [heapLib]
  by_cases hp : p = NULL
  · simp [hp]
  · simp only [hp, if_false]
    unfold Heap.release
    by_cases hf : h.fault = true
    · simp [hf]
    · by_cases hk : h.kindAt p = some Kind.hmac
      · have hf2 : (h.set p (Kind.raw szH)).fault = false := by simpa [Heap.set] using hf
        simp [hf, hk, hf2, Heap.kindAt_set _ _ _ _ hk, Heap.remove_set]
      · simp [hf, hk, Heap.crash]

theorem heapLib_md_new (pick : Heap → Ptr) (szH : Nat) (h : Heap) :
    (heapLib pick szH).EVP_MD_CTX_new h = (heapLib pick szH).EVP_MD_CTX_create h := rfl

theorem heapLib_md_free (pick : Heap → Ptr) (szH : Nat) (p : Ptr) (h : Heap) :
    (heapLib pick szH).EVP_MD_CTX_free p h =
      if p = NULL then h else (heapLib pick szH).EVP_MD_CTX_destroy p h := rfl


/-! Section: the shims over the reference heap library. -/

theorem heap_hmac_new (cfg : BuildConfig) (pick : Heap → Ptr) (szH : Nat) (h : Heap) :
    AWSCRYPTO_HMAC_CTX_new cfg (heapLib pick szH) h = Heap.alloc pick Kind.hmac h := by
  rcases legacyPath_cases cfg with hc | hc
  · rw [hmac_new_of_legacy hc]
    have hlib := heapLib_hmac_new pick szH h
    change Heap.alloc pick Kind.hmac h = _ at hlib
    rw [hlib]
    unfold AWSCRYPTO_HMAC_CTX_new_legacy
    by_cases hp : ((heapLib pick szH).OPENSSL_malloc (heapLib pick szH).sizeof_HMAC_CTX h).1 = NULL
    · simp only [hp, if_true, ne_eq, not_true_eq_false, if_false]
      exact Prod.ext hp.symm rfl
    · simp [hp]
  · rw [hmac_new_of_modern hc]
    rfl

theorem heap_hmac_free (cfg : BuildConfig) (pick : Heap → Ptr) (szH : Nat) (p : Ptr) (h : Heap) :
    AWSCRYPTO_HMAC_CTX_free cfg (heapLib pick szH) p h =
      if p = NULL then h else Heap.release Kind.hmac p h := by
  rcases legacyPath_cases cfg with hc | hc
  · rw [hmac_free_of_legacy hc]
    have hlib := heapLib_hmac_free pick szH p h
    change (if p = NULL then h else Heap.release Kind.hmac p h) = _ at hlib
    rw [hlib]
    unfold AWSCRYPTO_HMAC_CTX_free_legacy
    by_cases hp : p = NULL <;> simp [hp]
  · rw [hmac_free_of_modern hc]
    rfl

theorem heap_md_new (cfg : BuildConfig) (pick : Heap → Ptr) (szH : Nat) (h : Heap) :
    AWSCRYPTO_EVP_MD_CTX_new cfg (heapLib pick szH) h = Heap.alloc pick Kind.digest h := by
  rcases legacyPath_cases cfg with hc | hc
  · rw [md_new_of_legacy hc]
    rfl
  · rw [md_new_of_modern hc]
    rfl

theorem heap_md_free (cfg : BuildConfig) (pick : Heap → Ptr) (szH : Nat) (p : Ptr) (h : Heap) :
    AWSCRYPTO_EVP_MD_CTX_free cfg (heapLib pick szH) p h =
      if p = NULL then h else Heap.release Kind.digest p h := by
  rcases legacyPath_cases cfg with hc | hc
  · rw [md_free_of_legacy hc]
    unfold AWSCRYPTO_EVP_MD_CTX_free_legacy
    by_cases hp : p = NULL
    · simp [hp]
    · simp only [hp, ne_eq, not_false_eq_true, if_true, if_false]
      rfl
  · rw [md_free_of_modern hc]
    rfl

/-- Release of a live handle of the right kind, on a heap without fault. -/
theorem Heap.release_live (k : Kind) (p : Ptr) (h : Heap) (hf : h.fault = false)
    (hk : h.kindAt p = some k) : Heap.release k p h = h.remove p := by
  simp [Heap.release, hf, hk]

/-- Allocation followed by release of the returned handle restores the heap. -/
theorem Heap.alloc_release (pick : Heap → Ptr) (k : Kind) (h : Heap) :
    (if (Heap.alloc pick k h).1 = NULL then (Heap.alloc pick k h).2
      else Heap.release k (Heap.alloc pick k h).1 (Heap.alloc pick k h).2) = h := by
  rcases Heap.alloc_spec pick k h with ⟨hp, hh⟩ | ⟨hp, hf, hl, hh⟩
  · simp [hp, hh]
  · simp only [hp, if_false]
    have hf1 : (h.insert (Heap.alloc pick k h).1 k).fault = false := hf
    rw [hh, Heap.release_live k _ _ hf1 (Heap.kindAt_insert_self _ _ _ hp),
      Heap.remove_insert _ _ _ hl]

theorem Heap.isLive_insert_self (h : Heap) (p : Ptr) (k : Kind) :
    (h.insert p k).isLive p = true := by
  simp [Heap.isLive, Heap.insert]

/-- Two successful allocations in a row: the handles differ, each can be
released while the other stays live and initialised, and releasing both, in
either order, restores the heap the first allocation started from. -/
theorem Heap.alloc_alloc (pick : Heap → Ptr) (k : Kind) (h h1 h2 : Heap) (p1 p2 : Ptr)
    (e1 : Heap.alloc pick k h = (p1, h1)) (e2 : Heap.alloc pick k h1 = (p2, h2))
    (n1 : p1 ≠ NULL) (n2 : p2 ≠ NULL) :
    p1 ≠ p2 ∧ h.fault = false ∧ h.isLive p1 = false ∧ h.isLive p2 = false ∧
    Heap.release k p1 h2 = h.insert p2 k ∧
    Heap.release k p2 h2 = h.insert p1 k ∧
    Heap.release k p2 (Heap.release k p1 h2) = h ∧
    Heap.release k p1 (Heap.release k p2 h2) = h := by
  have s1 := Heap.alloc_spec pick k h
  have s2 := Heap.alloc_spec pick k h1
  rw [e1] at s1
  rw [e2] at s2
  simp only [n1, n2, false_and, false_or, ne_eq, not_false_eq_true, true_and] at s1 s2
  obtain ⟨hf, hl1, hh1⟩ := s1
  obtain ⟨hf1, hl2, hh2⟩ := s2
  subst hh1
  subst hh2
  have hne : p1 ≠ p2 := by
    intro hEq
    rw [← hEq, Heap.isLive_insert_self] at hl2
    exact Bool.noConfusion hl2
  have hl2h : h.isLive p2 = false := by
    simp only [Heap.isLive, Heap.insert, List.any_cons, Bool.or_eq_false_iff] at hl2
    exact hl2.2
  have hfa : ∀ (q : Ptr), (h.insert q k).fault = false := fun _ => hf
  have hfb : ((h.insert p1 k).insert p2 k).fault = false := hf
  have r1 : Heap.release k p1 ((h.insert p1 k).insert p2 k) = h.insert p2 k := by
    rw [Heap.release_live k _ _ hfb
      (by rw [Heap.kindAt_insert_other _ _ _ _ (Ne.symm hne)]
          exact Heap.kindAt_insert_self _ _ _ n1),
      Heap.remove_insert_other _ _ _ _ (Ne.symm hne), Heap.remove_insert _ _ _ hl1]
  have r2 : Heap.release k p2 ((h.insert p1 k).insert p2 k) = h.insert p1 k := by
    rw [Heap.release_live k _ _ hfb (Heap.kindAt_insert_self _ _ _ n2),
      Heap.remove_insert _ _ _ hl2]
  refine ⟨hne, hf, hl1, hl2h, r1, r2, ?_, ?_⟩
  · rw [r1, Heap.release_live k _ _ (hfa p2) (Heap.kindAt_insert_self _ _ _ n2),
      Heap.remove_insert _ _ _ hl2h]
  · rw [r2, Heap.release_live k _ _ (hfa p1) (Heap.kindAt_insert_self _ _ _ n1),
      Heap.remove_insert _ _ _ hl1]


theorem Heap.isLive_insert_other (h : Heap) (p q : Ptr) (k : Kind) (hpq : p ≠ q)
    (hq : h.isLive q = false) : (h.insert p k).isLive q = false := by
  simp only [Heap.isLive] at hq
  simp [Heap.isLive, Heap.insert, hpq, hq]

/-- The facts of `Heap.alloc_alloc`, for the null-tolerant release the shims
amount to on the reference heap library. -/
theorem Heap.alloc_alloc_release (pick : Heap → Ptr) (k : Kind) (rel : Ptr → Heap → Heap)
    (hrel : ∀ p g, rel p g = if p = NULL then g else Heap.release k p g)
    (h h1 h2 : Heap) (p1 p2 : Ptr)
    (e1 : Heap.alloc pick k h = (p1, h1)) (e2 : Heap.alloc pick k h1 = (p2, h2))
    (n1 : p1 ≠ NULL) (n2 : p2 ≠ NULL) :
    p1 ≠ p2 ∧
    (rel p1 h2).kindAt p2 = some k ∧ (rel p1 h2).isLive p1 = false ∧
    (rel p1 h2).fault = false ∧
    (rel p2 h2).kindAt p1 = some k ∧ (rel p2 h2).isLive p2 = false ∧
    (rel p2 h2).fault = false ∧
    rel p2 (rel p1 h2) = rel p1 (rel p2 h2) ∧
    rel p2 (rel p1 h2) = h ∧
    h.isLive p1 = false ∧ h.isLive p2 = false ∧ h.fault = false := by
  obtain ⟨hne, hf, hl1, hl2, r1, r2, r12, r21⟩ := Heap.alloc_alloc pick k h h1 h2 p1 p2 e1 e2 n1 n2
  simp only [hrel, n1, n2, if_false]
  rw [r12, r21, r1, r2]
  exact ⟨hne, Heap.kindAt_insert_self _ _ _ n2,
    Heap.isLive_insert_other _ _ _ _ (Ne.symm hne) hl1, hf,
    Heap.kindAt_insert_self _ _ _ n1, Heap.isLive_insert_other _ _ _ _ hne hl2, hf,
    rfl, rfl, hl1, hl2, hf⟩

/-- Witness of C4: the reference heap library meets the four library
hypotheses; OpenSSL 1.0.2 selects the legacy path and OpenSSL 1.1.1 the modern
path; the two agree on a heap holding one HMAC context at handle `1`. -/
theorem modern_legacy_equivalent_witness :
    (legacyPath openssl_1_0_2 = true ∧ legacyPath openssl_1_1_1 = false) ∧
    AWSCRYPTO_HMAC_CTX_new openssl_1_1_1 (heapLib bumpPick 8)
        { blocks := [(1, Kind.hmac)], fault := false } =
      AWSCRYPTO_HMAC_CTX_new openssl_1_0_2 (heapLib bumpPick 8)
        { blocks := [(1, Kind.hmac)], fault := false } ∧
    AWSCRYPTO_HMAC_CTX_free openssl_1_1_1 (heapLib bumpPick 8) 1
        { blocks := [(1, Kind.hmac)], fault := false } =
      AWSCRYPTO_HMAC_CTX_free openssl_1_0_2 (heapLib bumpPick 8) 1
        { blocks := [(1, Kind.hmac)], fault := false } ∧
    AWSCRYPTO_EVP_MD_CTX_new openssl_1_1_1 (heapLib bumpPick 8)
        { blocks := [(1, Kind.hmac)], fault := false } =
      AWSCRYPTO_EVP_MD_CTX_new openssl_1_0_2 (heapLib bumpPick 8)
        { blocks := [(1, Kind.hmac)], fault := false } ∧
    AWSCRYPTO_EVP_MD_CTX_free openssl_1_1_1 (heapLib bumpPick 8) 1
        { blocks := [(1, Kind.hmac)], fault := false } =
      AWSCRYPTO_EVP_MD_CTX_free openssl_1_0_2 (heapLib bumpPick 8) 1
        { blocks := [(1, Kind.hmac)], fault := false } :=
  ⟨⟨by decide, by decide⟩,
    modern_legacy_equivalent openssl_1_0_2 openssl_1_1_1 (heapLib bumpPick 8)
      (by decide) (by decide)
      (heapLib_hmac_new bumpPick 8) (heapLib_hmac_free bumpPick 8)
      (heapLib_md_new bumpPick 8) (heapLib_md_free bumpPick 8)
      1 { blocks := [(1, Kind.hmac)], fault := false }⟩

/-! Section: allocate then release (C5). -/

/-- C5: on the reference heap library, for both context types, whichever path
the build configuration selects, whatever the allocator policy and from every
heap: allocate followed at once by release of the returned handle ends in the
heap it started from.  The live blocks are exactly those from before the
allocation and the fault flag is as it was, so nothing leaks and no fault is
raised; this covers the allocation that succeeds and the one that returns
null. -/
theorem alloc_release_restores (cfg : BuildConfig) (pick : Heap → Ptr) (szH : Nat) (h : Heap) :
    AWSCRYPTO_HMAC_CTX_free cfg (heapLib pick szH)
        (AWSCRYPTO_HMAC_CTX_new cfg (heapLib pick szH) h).1
        (AWSCRYPTO_HMAC_CTX_new cfg (heapLib pick szH) h).2 = h ∧
    AWSCRYPTO_EVP_MD_CTX_free cfg (heapLib pick szH)
        (AWSCRYPTO_EVP_MD_CTX_new cfg (heapLib pick szH) h).1
        (AWSCRYPTO_EVP_MD_CTX_new cfg (heapLib pick szH) h).2 = h := by
  refine ⟨?_, ?_⟩
  · rw [heap_hmac_free, heap_hmac_new]
    exact Heap.alloc_release pick Kind.hmac h
  · rw [heap_md_free, heap_md_new]
    exact Heap.alloc_release pick Kind.digest h

/-! Section: two allocations in a row (C6). -/

/-- C6: on the reference heap library, for each context type and on either
path: when two allocations in a row both succeed, the two handles differ;
releasing the first leaves the second live and initialised (and the first no
longer live), releasing the second leaves the first live and initialised, no
fault is raised, and releasing both in either order ends in the same heap, the
one before the first allocation, in which neither handle is live. -/
theorem consecutive_allocs_independent (cfg : BuildConfig) (pick : Heap → Ptr) (szH : Nat)
    (h : Heap) :
    (∀ (p1 p2 : Ptr) (h1 h2 : Heap),
      AWSCRYPTO_HMAC_CTX_new cfg (heapLib pick szH) h = (p1, h1) →
      AWSCRYPTO_HMAC_CTX_new cfg (heapLib pick szH) h1 = (p2, h2) →
      p1 ≠ NULL → p2 ≠ NULL →
      p1 ≠ p2 ∧
      (AWSCRYPTO_HMAC_CTX_free cfg (heapLib pick szH) p1 h2).kindAt p2 = some Kind.hmac ∧
      (AWSCRYPTO_HMAC_CTX_free cfg (heapLib pick szH) p1 h2).isLive p1 = false ∧
      (AWSCRYPTO_HMAC_CTX_free cfg (heapLib pick szH) p1 h2).fault = false ∧
      (AWSCRYPTO_HMAC_CTX_free cfg (heapLib pick szH) p2 h2).kindAt p1 = some Kind.hmac ∧
      (AWSCRYPTO_HMAC_CTX_free cfg (heapLib pick szH) p2 h2).isLive p2 = false ∧
      (AWSCRYPTO_HMAC_CTX_free cfg (heapLib pick szH) p2 h2).fault = false ∧
      AWSCRYPTO_HMAC_CTX_free cfg (heapLib pick szH) p2
          (AWSCRYPTO_HMAC_CTX_free cfg (heapLib pick szH) p1 h2) =
        AWSCRYPTO_HMAC_CTX_free cfg (heapLib pick szH) p1
          (AWSCRYPTO_HMAC_CTX_free cfg (heapLib pick szH) p2 h2) ∧
      AWSCRYPTO_HMAC_CTX_free cfg (heapLib pick szH) p2
          (AWSCRYPTO_HMAC_CTX_free cfg (heapLib pick szH) p1 h2) = h ∧
      h.isLive p1 = false ∧ h.isLive p2 = false ∧ h.fault = false) ∧
    (∀ (p1 p2 : Ptr) (h1 h2 : Heap),
      AWSCRYPTO_EVP_MD_CTX_new cfg (heapLib pick szH) h = (p1, h1) →
      AWSCRYPTO_EVP_MD_CTX_new cfg (heapLib pick szH) h1 = (p2, h2) →
      p1 ≠ NULL → p2 ≠ NULL →
      p1 ≠ p2 ∧
      (AWSCRYPTO_EVP_MD_CTX_free cfg (heapLib pick szH) p1 h2).kindAt p2 = some Kind.digest ∧
      (AWSCRYPTO_EVP_MD_CTX_free cfg (heapLib pick szH) p1 h2).isLive p1 = false ∧
      (AWSCRYPTO_EVP_MD_CTX_free cfg (heapLib pick szH) p1 h2).fault = false ∧
      (AWSCRYPTO_EVP_MD_CTX_free cfg (heapLib pick szH) p2 h2).kindAt p1 = some Kind.digest ∧
      (AWSCRYPTO_EVP_MD_CTX_free cfg (heapLib pick szH) p2 h2).isLive p2 = false ∧
      (AWSCRYPTO_EVP_MD_CTX_free cfg (heapLib pick szH) p2 h2).fault = false ∧
      AWSCRYPTO_EVP_MD_CTX_free cfg (heapLib pick szH) p2
          (AWSCRYPTO_EVP_MD_CTX_free cfg (heapLib pick szH) p1 h2) =
        AWSCRYPTO_EVP_MD_CTX_free cfg (heapLib pick szH) p1
          (AWSCRYPTO_EVP_MD_CTX_free cfg (heapLib pick szH) p2 h2) ∧
      AWSCRYPTO_EVP_MD_CTX_free cfg (heapLib pick szH) p2
          (AWSCRYPTO_EVP_MD_CTX_free cfg (heapLib pick szH) p1 h2) = h ∧
      h.isLive p1 = false ∧ h.isLive p2 = false ∧ h.fault = false) := by
  refine ⟨?_, ?_⟩
  · intro p1 p2 h1 h2 e1 e2 n1 n2
    rw [heap_hmac_new] at e1 e2
    exact Heap.alloc_alloc_release pick Kind.hmac (AWSCRYPTO_HMAC_CTX_free cfg (heapLib pick szH))
      (heap_hmac_free cfg pick szH) h h1 h2 p1 p2 e1 e2 n1 n2
  · intro p1 p2 h1 h2 e1 e2 n1 n2
    rw [heap_md_new] at e1 e2
    exact Heap.alloc_alloc_release pick Kind.digest
      (AWSCRYPTO_EVP_MD_CTX_free cfg (heapLib pick szH))
      (heap_md_free cfg pick szH) h h1 h2 p1 p2 e1 e2 n1 n2

/-- Witness of C6 on the legacy path (OpenSSL 1.0.2): two HMAC contexts
allocated from the empty heap get the handles `1` and `2`. -/
theorem consecutive_allocs_independent_witness :
    (AWSCRYPTO_HMAC_CTX_new openssl_1_0_2 (heapLib bumpPick 8) Heap.empty =
        (1, { blocks := [(1, Kind.hmac)], fault := false }) ∧
      AWSCRYPTO_HMAC_CTX_new openssl_1_0_2 (heapLib bumpPick 8)
          { blocks := [(1, Kind.hmac)], fault := false } =
        (2, { blocks := [(2, Kind.hmac), (1, Kind.hmac)], fault := false }) ∧
      (1 : Ptr) ≠ NULL ∧ (2 : Ptr) ≠ NULL) ∧
    ((1 : Ptr) ≠ 2 ∧
      (AWSCRYPTO_HMAC_CTX_free openssl_1_0_2 (heapLib bumpPick 8) 1
        { blocks := [(2, Kind.hmac), (1, Kind.hmac)], fault := false }).kindAt 2
          = some Kind.hmac) :=
  ⟨⟨by decide, by decide, by decide, by decide⟩,
    ((consecutive_allocs_independent openssl_1_0_2 bumpPick 8 Heap.empty).1 1 2
      { blocks := [(1, Kind.hmac)], fault := false }
      { blocks := [(2, Kind.hmac), (1, Kind.hmac)], fault := false }
      (by decide) (by decide) (by decide) (by decide)).1,
    ((consecutive_allocs_independent openssl_1_0_2 bumpPick 8 Heap.empty).1 1 2
      { blocks := [(1, Kind.hmac)], fault := false }
      { blocks := [(2, Kind.hmac), (1, Kind.hmac)], fault := false }
      (by decide) (by decide) (by decide) (by decide)).2.1⟩

end CAWSCrypto
